import Mathlib

/-!
Verification of the minikube cluster-provider adapter
(`src/components/clusterprovider/minikube/minikube.ts`).

The adapter shells out to an external `minikube` binary.  We embed the
pure content of each operation: the JSON status parsing, the flag/command
string building, the presence cache, and the UI/event flow of `start` and
`stop`, with the outcomes of the external collaborators (shell execution,
binary locator) supplied as explicit parameters.
-/

/-- Result of a shell command, as in `shell.ts` (`ShellResult`):
exit code, stdout and stderr. -/
structure ShellResult where
  code : Int
  stdout : String
  stderr : String
deriving DecidableEq, Repr

/-- JavaScript values that can arise from `JSON.parse`, plus `undefined`
(which arises from out-of-range element access).  Number literals are kept
as their source text, which is all the adapter ever needs (it only ever
compares a parsed value against a string literal). -/
inductive JsValue where
  | undef
  | null
  | bool (b : Bool)
  | num (lit : String)
  | str (s : String)
  | arr (elems : List JsValue)
  | obj (fields : List (String × JsValue))

/-- Skip JSON whitespace. -/
def skipWs : List Char → List Char
  | [] => []
  | c :: cs => if c = ' ' || c = '\t' || c = '\n' || c = '\r' then skipWs cs else c :: cs

/-- Value of a hexadecimal digit, if the character is one. -/
def hexVal (c : Char) : Option Nat :=
  if '0' ≤ c ∧ c ≤ '9' then some (c.toNat - '0'.toNat)
  else if 'a' ≤ c ∧ c ≤ 'f' then some (c.toNat - 'a'.toNat + 10)
  else if 'A' ≤ c ∧ c ≤ 'F' then some (c.toNat - 'A'.toNat + 10)
  else none

/-- Parse the body of a JSON string (the opening quote already consumed),
accumulating characters in reverse.  Handles the JSON escape forms and
rejects unescaped control characters, as `JSON.parse` does. -/
def parseStringBody (acc : List Char) : List Char → Option (String × List Char)
  | [] => none
  | '"' :: rest => some (String.mk acc.reverse, rest)
  | '\\' :: rest =>
    match rest with
    | '"' :: r => parseStringBody ('"' :: acc) r
    | '\\' :: r => parseStringBody ('\\' :: acc) r
    | '/' :: r => parseStringBody ('/' :: acc) r
    | 'b' :: r => parseStringBody (Char.ofNat 8 :: acc) r
    | 'f' :: r => parseStringBody (Char.ofNat 12 :: acc) r
    | 'n' :: r => parseStringBody ('\n' :: acc) r
    | 'r' :: r => parseStringBody ('\r' :: acc) r
    | 't' :: r => parseStringBody ('\t' :: acc) r
    | 'u' :: h1 :: h2 :: h3 :: h4 :: r =>
      match hexVal h1, hexVal h2, hexVal h3, hexVal h4 with
      | some a, some b, some c, some d =>
        parseStringBody (Char.ofNat (((a * 16 + b) * 16 + c) * 16 + d) :: acc) r
      | _, _, _, _ => none
    | _ => none
  | c :: rest => if c.toNat < 32 then none else parseStringBody (c :: acc) rest

/-- Parse the integer part of a JSON number: `0`, or a nonzero digit
followed by digits. -/
def parseIntDigits : List Char → Option (List Char × List Char)
  | '0' :: cs => some (['0'], cs)
  | c :: cs =>
    if c.isDigit then
      let sp := cs.span (·.isDigit)
      some (c :: sp.1, sp.2)
    else none
  | [] => none

/-- Parse an optional JSON fraction part (`.` followed by digits). -/
def parseFracDigits : List Char → Option (List Char × List Char)
  | '.' :: r =>
    let sp := r.span (·.isDigit)
    if sp.1.isEmpty then none else some ('.' :: sp.1, sp.2)
  | cs => some ([], cs)

/-- Parse an optional JSON exponent part (`e`/`E`, optional sign, digits). -/
def parseExpDigits : List Char → Option (List Char × List Char)
  | c :: r =>
    if c = 'e' || c = 'E' then
      let signAndRest : List Char × List Char :=
        match r with
        | '+' :: rr => (['+'], rr)
        | '-' :: rr => (['-'], rr)
        | _ => ([], r)
      let sp := signAndRest.2.span (·.isDigit)
      if sp.1.isEmpty then none else some (c :: signAndRest.1 ++ sp.1, sp.2)
    else some ([], c :: r)
  | [] => some ([], [])

/-- Parse a JSON number literal, returning its source text. -/
def parseNumberLit (cs : List Char) : Option (String × List Char) := do
  let signAndRest : List Char × List Char :=
    match cs with
    | '-' :: r => (['-'], r)
    | _ => ([], cs)
  let (ip, cs2) ← parseIntDigits signAndRest.2
  let (fp, cs3) ← parseFracDigits cs2
  let (ep, cs4) ← parseExpDigits cs3
  some (String.mk (signAndRest.1 ++ ip ++ fp ++ ep), cs4)

mutual

/-- Recursive-descent parser for a JSON value, modelling the grammar
accepted by the ECMAScript `JSON.parse` builtin (not repository code).
The fuel argument only bounds nesting depth; `jsonParse` supplies enough
for any input. -/
def parseJsonValue : Nat → List Char → Option (JsValue × List Char)
  | 0, _ => none
  | fuel + 1, cs =>
    match skipWs cs with
    | 't' :: 'r' :: 'u' :: 'e' :: rest => some (.bool true, rest)
    | 'f' :: 'a' :: 'l' :: 's' :: 'e' :: rest => some (.bool false, rest)
    | 'n' :: 'u' :: 'l' :: 'l' :: rest => some (.null, rest)
    | '"' :: rest => (parseStringBody [] rest).map (fun p => (.str p.1, p.2))
    | '[' :: rest =>
      match skipWs rest with
      | ']' :: r2 => some (.arr [], r2)
      | r2 => (parseJsonElems fuel r2).map (fun p => (.arr p.1, p.2))
    | '{' :: rest =>
      match skipWs rest with
      | '}' :: r2 => some (.obj [], r2)
      | r2 => (parseJsonMembers fuel r2).map (fun p => (.obj p.1, p.2))
    | other => (parseNumberLit other).map (fun p => (.num p.1, p.2))

/-- Parse the elements of a non-empty JSON array, up to and including the
closing bracket. -/
def parseJsonElems : Nat → List Char → Option (List JsValue × List Char)
  | 0, _ => none
  | fuel + 1, cs => do
    let (v, rest) ← parseJsonValue fuel cs
    match skipWs rest with
    | ',' :: r2 => do
      let (vs, r3) ← parseJsonElems fuel r2
      some (v :: vs, r3)
    | ']' :: r2 => some ([v], r2)
    | _ => none

/-- Parse the members of a non-empty JSON object, up to and including the
closing brace. -/
def parseJsonMembers : Nat → List Char → Option (List (String × JsValue) × List Char)
  | 0, _ => none
  | fuel + 1, cs =>
    match skipWs cs with
    | '"' :: rest => do
      let (k, r1) ← parseStringBody [] rest
      match skipWs r1 with
      | ':' :: r2 => do
        let (v, r3) ← parseJsonValue fuel r2
        match skipWs r3 with
        | ',' :: r4 => do
          let (kvs, r5) ← parseJsonMembers fuel r4
          some ((k, v) :: kvs, r5)
        | '}' :: r4 => some ([(k, v)], r4)
        | _ => none
      | _ => none
    | _ => none

end

/-- Model of the `JSON.parse` builtin: parse the whole string as a single
JSON value, allowing surrounding whitespace; `none` models the thrown
SyntaxError. -/
def jsonParse (s : String) : Option JsValue :=
  match parseJsonValue (s.length + 1) s.toList with
  | some (v, rest) => if (skipWs rest).isEmpty then some v else none
  | none => none

/-- The errors `minikubeStatus` can throw: the silent presence check
failing, `JSON.parse` throwing on invalid input, element access on
`null`/`undefined` throwing, and the non-empty-stderr failure. -/
inductive MkError where
  | notFound (msg : String)
  | parseError
  | typeError
  | commandFailed (msg : String)
deriving DecidableEq, Repr

/-- JavaScript element access `v[i]` for a nonnegative integer index, as
used on the value returned by `JSON.parse`: access on `null`/`undefined`
throws a TypeError; strings index to one-character strings; arrays index
to their elements; objects look the index up as a string key (last
duplicate key wins, as in `JSON.parse`); anything out of range, and any
access on numbers or booleans, is `undefined`. -/
def jsElementAt : JsValue → Nat → Except MkError JsValue
  | .undef, _ => .error .typeError
  | .null, _ => .error .typeError
  | .bool _, _ => .ok .undef
  | .num _, _ => .ok .undef
  | .str s, i =>
    .ok (match s.toList.get? i with
      | some c => .str (String.mk [c])
      | none => .undef)
  | .arr elems, i => .ok ((elems.get? i).getD .undef)
  | .obj fields, i =>
    .ok ((((fields.reverse.find? (fun kv => kv.1 == toString i)).map Prod.snd)).getD .undef)

/-- JavaScript strict equality of a string literal against an arbitrary
value, as in the source's test of the first status array entry:
true exactly for the same string. -/
def jsStrictEqStr (s : String) : JsValue → Bool
  | .str t => s == t
  | _ => false

/-- The status record built by `minikubeStatus` (`MinikubeInfo` in the
source).  The source casts the parsed JSON entries into the string-typed
fields without checking, so the fields hold arbitrary JavaScript values. -/
structure MinikubeInfo where
  running : Bool
  cluster : JsValue
  kubectl : JsValue

/-- The body of `minikubeStatus` after the presence check, as a function
of the status command's `ShellResult`: with empty stderr, parse stdout
with `JSON.parse` and build the record from entries 0, 1, 2, with
`running` set iff the first entry is not the string `Stopped`; with
non-empty stderr, throw `failed to get status: <stderr>`. -/
def minikubeStatusRun (result : ShellResult) : Except MkError MinikubeInfo :=
  if result.stderr.length = 0 then
    match jsonParse result.stdout with
    | none => .error .parseError
    | some v => do
      let a ← jsElementAt v 0
      let b ← jsElementAt v 1
      let c ← jsElementAt v 2
      .ok { running := !jsStrictEqStr "Stopped" a, cluster := b, kubectl := c }
  else .error (.commandFailed ("failed to get status: " ++ result.stderr))

/-- `minikubeStatus`: the silent presence check first (throwing when the
binary is not found), then the status invocation; `found` is the outcome
of `checkPresent` and `result` the `ShellResult` of the status command. -/
def minikubeStatus (found : Bool) (result : ShellResult) : Except MkError MinikubeInfo :=
  if found then minikubeStatusRun result
  else .error (.notFound "minikube executable could not be found!")

/-- Options to `start` (`MinikubeOptions` in the source).  The source
types the fields as `string`, but callers can omit them, so each field is
an `Option String` with `none` standing for JavaScript
`undefined`/`null`. -/
structure MinikubeOptions where
  vmDriver : Option String
  additionalFlags : Option String
deriving DecidableEq, Repr

/-- JavaScript truthiness of a possibly-absent string: `undefined`,
`null` and the empty string are falsy, every other string is truthy. -/
def strTruthy : Option String → Bool
  | none => false
  | some s => !s.isEmpty

/-- The flag string built by `startMinikube`: `additionalFlags` if truthy
(else the empty string), with `--vm-driver=<driver>` appended, wrapped in
spaces, when `vmDriver` is truthy and non-empty. -/
def startFlags (options : MinikubeOptions) : String :=
  let flags := if strTruthy options.additionalFlags then options.additionalFlags.getD "" else ""
  if strTruthy options.vmDriver then
    if (options.vmDriver.getD "").length > 0 then
      flags ++ " --vm-driver=" ++ options.vmDriver.getD "" ++ " "
    else flags
  else flags

/-- The full command string `startMinikube` passes to the shell:
the template is the binary path, a space, the flag string, a space,
and `start`. -/
def startCommand (binPath : String) (options : MinikubeOptions) : String :=
  binPath ++ " " ++ startFlags options ++ " start"

/-- The part of the start command after the binary path: the flag string
followed by a space and `start`. -/
def startArgString (options : MinikubeOptions) : String :=
  startFlags options ++ " start"

/-- The UI side effects `startMinikube` and `stopMinikube` perform, in
order: setting the status-bar item's text, showing or hiding it, and the
three kinds of toast message. -/
inductive UiEvent where
  | sbSetText (t : String)
  | sbShow
  | sbHide
  | warning (msg : String)
  | info (msg : String)
  | showError (msg : String)
deriving DecidableEq, Repr

/-- `startMinikube`, as a function of the outcomes of its collaborators:
`found` is the presence check's answer, `statusResult` the outcome of the
awaited status precheck, and `startOutcome` the eventual outcome of the
detached `shell.exec` of the start command (a thrown error is its string
rendering).  The result is the ordered list of UI events, the command
string passed to the shell (`none` when no start command is invoked), and
the returned promise's outcome: `.error` models a rejection. -/
def startMinikube (binPath : String) (found : Bool) (options : MinikubeOptions)
    (statusResult : Except MkError MinikubeInfo)
    (startOutcome : Except String ShellResult) :
    List UiEvent × Option String × Except MkError Unit :=
  if found then
    let pre := [UiEvent.sbSetText "minikube-starting", UiEvent.sbShow]
    match statusResult with
    | .error e => (pre, none, .error e)
    | .ok status =>
      if status.running then
        (pre ++ [UiEvent.warning "Minikube cluster is already started."], none, .ok ())
      else
        let post :=
          match startOutcome with
          | .ok result =>
            if result.code = 0 then
              [UiEvent.info "Cluster started.", UiEvent.sbSetText "minikube-running"]
            else
              [UiEvent.showError ("Failed to start cluster " ++ result.stderr), UiEvent.sbHide]
          | .error e => [UiEvent.sbHide, UiEvent.showError ("Failed to start cluster: " ++ e)]
        (pre ++ post, some (startCommand binPath options), .ok ())
  else ([], none, .ok ())

/-- `stopMinikube`, under the same conventions as `startMinikube`:
presence check, `minikube-stopping` indicator, status precheck that warns
and stops when the cluster is not running, then the detached `stop`
invocation with its completion handling. -/
def stopMinikube (binPath : String) (found : Bool)
    (statusResult : Except MkError MinikubeInfo)
    (stopOutcome : Except String ShellResult) :
    List UiEvent × Option String × Except MkError Unit :=
  if found then
    let pre := [UiEvent.sbSetText "minikube-stopping", UiEvent.sbShow]
    match statusResult with
    | .error e => (pre, none, .error e)
    | .ok status =>
      if !status.running then
        (pre ++ [UiEvent.warning "Minikube cluster is already stopped."], none, .ok ())
      else
        let post :=
          match stopOutcome with
          | .ok result =>
            if result.code = 0 then
              [UiEvent.info "Cluster stopped.", UiEvent.sbHide]
            else
              [UiEvent.showError ("Error stopping cluster " ++ result.stderr), UiEvent.sbHide]
          | .error e => [UiEvent.showError ("Error stopping cluster: " ++ e), UiEvent.sbHide]
        (pre ++ post, some (binPath ++ " stop"), .ok ())
  else ([], none, .ok ())

/-- The `CheckPresentMode` enum of the source: whether a locator failure
is surfaced to the user or kept silent. -/
inductive CheckPresentMode where
  | Alert
  | Silent
deriving DecidableEq, Repr

/-- The part of the adapter's mutable context that presence checking
uses: the cached `binFound` flag. -/
structure PresenceContext where
  binFound : Bool
deriving DecidableEq, Repr

/-- Modelled from the spec: `binutil.checkForBinary` is not part of the
sources under verification.  Per the spec, the locator resolves whether
the binary exists (`located` is its answer) and updates the cached
presence on success only: positive caching, a negative result leaves the
flag unset. -/
def checkForBinary (ctx : PresenceContext) (located : Bool) : Bool × PresenceContext :=
  (located, { binFound := ctx.binFound || located })

/-- `checkPresent`: return the cached flag immediately when it is set,
otherwise invoke the locator.  The result is the returned boolean, the
updated context, and whether the locator was invoked. -/
def checkPresent (ctx : PresenceContext) (_mode : CheckPresentMode) (located : Bool) :
    Bool × PresenceContext × Bool :=
  if ctx.binFound then (true, ctx, false)
  else
    let r := checkForBinary ctx located
    (r.1, r.2, true)

/-- The `Errorable` result type of `errorable.ts` (imported by the
source, not itself under verification): success with a value, or failure
with a list of error strings. -/
inductive Errorable (α : Type) where
  | succeeded (result : α)
  | failed (error : List String)
deriving DecidableEq, Repr

/-- Whether an `Errorable` is a success. -/
def Errorable.isSucceeded : Errorable α → Bool
  | .succeeded _ => true
  | .failed _ => false

/-- The `Diagnostic` signal of `wizard.ts`: a lightweight success/failure
signal with no payload the adapter inspects. -/
inductive Diagnostic where
  | mk
deriving DecidableEq, Repr

/-- Modelled from the spec: `wizard.fromShellExitCodeOnly` is not part of
the sources under verification.  Per the spec it maps exit code 0 to
success and any other exit code to failure, parsing no output; the
failure carries the raw stderr. -/
def fromShellExitCodeOnly (sr : ShellResult) : Errorable Diagnostic :=
  if sr.code = 0 then .succeeded .mk else .failed [sr.stderr]

/-- `isRunnableMinikube`: when the (alerting) presence check fails,
return the `Minikube is not installed` failure without running anything;
otherwise run `<bin> help` and map its exit code.  `present` is the
presence check's answer and `helpResult` the `ShellResult` of the help
invocation; the second component records whether the help command was
executed. -/
def isRunnableMinikube (present : Bool) (helpResult : ShellResult) :
    Errorable Diagnostic × Bool :=
  if !present then (.failed ["Minikube is not installed"], false)
  else (fromShellExitCodeOnly helpResult, true)

theorem string_length_zero_iff (s : String) : s.length = 0 ↔ s = "" := by
  cases s with
  | mk data =>
    constructor
    · intro h
      have hdata : data = [] := List.length_eq_zero.mp h
      subst hdata
      rfl
    · intro h
      rw [h]
      rfl

/-- Claim C1: for every status invocation whose stdout parses as a JSON
array of three strings and whose stderr is empty, the returned record has
`running = true` exactly when the first string is not `Stopped`, and the
other two strings land in `cluster` and `kubectl`. -/
theorem minikubeStatus_running_iff_not_stopped (r : ShellResult) (s0 s1 s2 : String)
    (hstderr : r.stderr = "")
    (hparse : jsonParse r.stdout = some (.arr [.str s0, .str s1, .str s2])) :
    minikubeStatusRun r =
      .ok { running := decide (s0 ≠ "Stopped"), cluster := .str s1, kubectl := .str s2 } := by
  have h0 : r.stderr.length = 0 := by rw [hstderr]; rfl
  have hb : (!jsStrictEqStr "Stopped" (JsValue.str s0)) = decide (s0 ≠ "Stopped") := by
    by_cases h : s0 = "Stopped"
    · subst h; simp [jsStrictEqStr]
    · simp [jsStrictEqStr, h]
      intro hc
      exact h hc.symm
  unfold minikubeStatusRun
  rw [if_pos h0, hparse, ← hb]
  rfl

/-- Witness for C1 at a concrete status invocation. -/
theorem minikubeStatus_running_iff_not_stopped_witness :
    minikubeStatusRun { code := 0, stdout := "[\"Running\",\"x\",\"y\"]", stderr := "" } =
      .ok { running := decide (("Running" : String) ≠ "Stopped"),
            cluster := .str "x", kubectl := .str "y" } :=
  minikubeStatus_running_iff_not_stopped _ "Running" "x" "y" rfl rfl

/-- Counterexample to C2 as stated: a status invocation with empty stderr
whose stdout is not valid JSON does not succeed, so success is not
equivalent to empty stderr. -/
theorem status_empty_stderr_not_sufficient :
    ({ code := 0, stdout := "garbage", stderr := "" } : ShellResult).stderr = "" ∧
    minikubeStatusRun { code := 0, stdout := "garbage", stderr := "" } = .error .parseError :=
  ⟨rfl, rfl⟩

/-- Claim C2 (amended): empty stderr is necessary for `status()` to
succeed, and whenever stderr is non-empty the invocation fails, regardless
of stdout and exit code, with an error carrying that stderr text verbatim;
empty stderr alone does not guarantee success. -/
theorem minikubeStatus_stderr_gates_success (r : ShellResult) :
    (r.stderr ≠ "" →
      minikubeStatusRun r = .error (.commandFailed ("failed to get status: " ++ r.stderr))) ∧
    (∀ info : MinikubeInfo, minikubeStatusRun r = .ok info → r.stderr = "") := by
  constructor
  · intro h
    have hlen : ¬r.stderr.length = 0 := fun h0 => h ((string_length_zero_iff r.stderr).mp h0)
    unfold minikubeStatusRun
    rw [if_neg hlen]
  · intro info h
    by_cases h0 : r.stderr.length = 0
    · exact (string_length_zero_iff r.stderr).mp h0
    · unfold minikubeStatusRun at h
      rw [if_neg h0] at h
      cases h

/-- Witness for C2 (amended) at a concrete invocation with non-empty
stderr. -/
theorem minikubeStatus_stderr_gates_success_witness :
    minikubeStatusRun { code := 0, stdout := "[\"Running\",\"x\",\"y\"]", stderr := "boom" } =
      .error (.commandFailed "failed to get status: boom") :=
  (minikubeStatus_stderr_gates_success
    { code := 0, stdout := "[\"Running\",\"x\",\"y\"]", stderr := "boom" }).1 (by decide)

/-- Counterexample to C3 as stated: with empty stderr and a stdout that is
valid JSON but not an array of exactly three strings (four strings here),
`status()` raises nothing and returns a record built from the first three
entries. -/
theorem status_wrong_arity_returns :
    minikubeStatusRun { code := 0, stdout := "[\"Running\",\"a\",\"b\",\"c\"]", stderr := "" } =
      .ok { running := true, cluster := .str "a", kubectl := .str "b" } :=
  rfl

/-- Claim C3 (amended): with empty stderr, a stdout that is not valid
JSON makes `status()` raise a fatal parse error that propagates to the
caller; a valid-JSON stdout of the wrong shape is not always rejected —
in particular a four-string array returns a record built from its first
three entries. -/
theorem minikubeStatus_invalid_json_propagates :
    (∀ r : ShellResult, r.stderr = "" → jsonParse r.stdout = none →
      minikubeStatusRun r = .error .parseError) ∧
    minikubeStatusRun { code := 0, stdout := "[\"Running\",\"a\",\"b\",\"c\"]", stderr := "" } =
      .ok { running := true, cluster := .str "a", kubectl := .str "b" } := by
  constructor
  · intro r hstderr hparse
    have h0 : r.stderr.length = 0 := by rw [hstderr]; rfl
    unfold minikubeStatusRun
    rw [if_pos h0, hparse]
  · rfl

/-- Witness for C3 (amended) at a concrete invocation with non-JSON
stdout. -/
theorem minikubeStatus_invalid_json_propagates_witness :
    minikubeStatusRun { code := 0, stdout := "not json", stderr := "" } = .error .parseError :=
  minikubeStatus_invalid_json_propagates.1 { code := 0, stdout := "not json", stderr := "" } rfl rfl

/-- Counterexample to C4 as stated: with an empty driver and
`additionalFlags = "--foo"`, the argument string is `--foo start` with a
single space, not `--foo  start`. -/
theorem start_foo_argstring_single_space :
    startArgString { vmDriver := some "", additionalFlags := some "--foo" } = "--foo start" ∧
    startArgString { vmDriver := some "", additionalFlags := some "--foo" } ≠ "--foo  start" := by
  constructor
  · rfl
  · decide

/-- Claim C4 (amended): the argument string is `additionalFlags` verbatim
followed by `--vm-driver=<driver>` (wrapped in single spaces) only when a
non-empty driver was supplied; `{vmDriver: "", additionalFlags: "--foo"}`
yields `--foo start` (single space, no driver flag), and
`{vmDriver: "hyperkit", additionalFlags: ""}` yields
` --vm-driver=hyperkit  start`. -/
theorem start_flags_building :
    startArgString { vmDriver := some "", additionalFlags := some "--foo" } = "--foo start" ∧
    startArgString { vmDriver := some "hyperkit", additionalFlags := some "" } =
      " --vm-driver=hyperkit  start" ∧
    (∀ options : MinikubeOptions, strTruthy options.vmDriver = false →
      startArgString options = options.additionalFlags.getD "" ++ " start") ∧
    (∀ d f : String, d ≠ "" →
      startArgString { vmDriver := some d, additionalFlags := some f } =
        f ++ " --vm-driver=" ++ d ++ "  start") := by
  refine ⟨rfl, rfl, ?_, ?_⟩
  · intro options hvd
    cases options with
    | mk vd af =>
      simp only [startArgString, startFlags] at *
      rw [hvd]
      cases af with
      | none => simp [strTruthy]
      | some s =>
        by_cases hs : s = ""
        · subst hs; simp [strTruthy]
        · have hse : s.isEmpty = false := by
            rcases h : s.isEmpty with _ | _
            · rfl
            · exact absurd ((String.isEmpty_iff s).mp h) hs
          simp [strTruthy, hse]
  · intro d f hd
    have hne : d.isEmpty = false := by
      rcases h : d.isEmpty with _ | _
      · rfl
      · exact absurd ((String.isEmpty_iff d).mp h) hd
    have hlen : d.length > 0 := by
      rcases h : d.length with _ | n
      · exact absurd ((string_length_zero_iff d).mp h) hd
      · exact Nat.succ_pos n
    by_cases hf : f = ""
    · subst hf
      simp only [startArgString, startFlags, strTruthy, hne, Option.getD_some]
      simp [hlen, String.empty_append, String.append_assoc]
    · have hfe : f.isEmpty = false := by
        rcases h : f.isEmpty with _ | _
        · rfl
        · exact absurd ((String.isEmpty_iff f).mp h) hf
      simp only [startArgString, startFlags, strTruthy, hne, hfe, Option.getD_some]
      simp [hlen, String.append_assoc]

/-- Witness for C4 (amended) at a concrete non-empty driver and flags. -/
theorem start_flags_building_witness :
    startArgString { vmDriver := some "kvm2", additionalFlags := some "--foo" } =
      "--foo" ++ " --vm-driver=" ++ "kvm2" ++ "  start" :=
  start_flags_building.2.2.2 "kvm2" "--foo" (by decide)

/-- Claim C5: when the binary is present and the status precheck reports
a running cluster, `start` shows exactly the starting indicator followed
by a warning (no error, no hide), and invokes no start command. -/
theorem start_already_running_warns (bin : String) (options : MinikubeOptions)
    (st : MinikubeInfo) (outc : Except String ShellResult) (h : st.running = true) :
    startMinikube bin true options (.ok st) outc =
      ([UiEvent.sbSetText "minikube-starting", UiEvent.sbShow,
        UiEvent.warning "Minikube cluster is already started."], none, .ok ()) := by
  unfold startMinikube
  simp [h]

/-- Witness for C5 at a concrete running precheck. -/
theorem start_already_running_warns_witness :
    startMinikube "minikube" true { vmDriver := none, additionalFlags := none }
        (.ok { running := true, cluster := .str "Running", kubectl := .str "Configured" })
        (.ok { code := 0, stdout := "", stderr := "" }) =
      ([UiEvent.sbSetText "minikube-starting", UiEvent.sbShow,
        UiEvent.warning "Minikube cluster is already started."], none, .ok ()) :=
  start_already_running_warns "minikube" _ _ _ rfl

/-- Claim C6: when the binary is present and the status precheck reports
a stopped cluster, `stop` shows exactly the stopping indicator followed by
a warning, and invokes no stop command. -/
theorem stop_already_stopped_warns (bin : String)
    (st : MinikubeInfo) (outc : Except String ShellResult) (h : st.running = false) :
    stopMinikube bin true (.ok st) outc =
      ([UiEvent.sbSetText "minikube-stopping", UiEvent.sbShow,
        UiEvent.warning "Minikube cluster is already stopped."], none, .ok ()) := by
  unfold stopMinikube
  simp [h]

/-- Witness for C6 at a concrete stopped precheck. -/
theorem stop_already_stopped_warns_witness :
    stopMinikube "minikube" true
        (.ok { running := false, cluster := .str "Stopped", kubectl := .str "Configured" })
        (.ok { code := 0, stdout := "", stderr := "" }) =
      ([UiEvent.sbSetText "minikube-stopping", UiEvent.sbShow,
        UiEvent.warning "Minikube cluster is already stopped."], none, .ok ()) :=
  stop_already_stopped_warns "minikube" _ _ rfl

/-- Counterexample to C9 as stated: when the status precheck throws, the
task returned by `start` rejects with that error, so a precheck failure
is observable by the caller. -/
theorem start_precheck_throw_rejects :
    (startMinikube "minikube" true { vmDriver := none, additionalFlags := none }
        (.error (.commandFailed "failed to get status: boom"))
        (.ok { code := 0, stdout := "", stderr := "" })).2.2 =
      .error (.commandFailed "failed to get status: boom") :=
  rfl

/-- Claim C9 (amended): the task returned by `start` or `stop` resolves
whenever the presence check fails or the status precheck succeeds — in
particular the underlying tool invocation's outcome is never observable —
but a throwing status precheck propagates to the caller as a rejection. -/
theorem start_stop_resolution :
    (∀ bin options statusRes outc, (startMinikube bin false options statusRes outc).2.2 = .ok ()) ∧
    (∀ bin options st outc, (startMinikube bin true options (.ok st) outc).2.2 = .ok ()) ∧
    (∀ bin options e outc, (startMinikube bin true options (.error e) outc).2.2 = .error e) ∧
    (∀ bin statusRes outc, (stopMinikube bin false statusRes outc).2.2 = .ok ()) ∧
    (∀ bin st outc, (stopMinikube bin true (.ok st) outc).2.2 = .ok ()) ∧
    (∀ bin e outc, (stopMinikube bin true (.error e) outc).2.2 = .error e) := by
  refine ⟨?_, ?_, ?_, ?_, ?_, ?_⟩
  · intro bin options statusRes outc; rfl
  · intro bin options st outc
    cases h : st.running <;> simp [startMinikube, h]
  · intro bin options e outc; rfl
  · intro bin statusRes outc; rfl
  · intro bin st outc
    cases h : st.running <;> simp [stopMinikube, h]
  · intro bin e outc; rfl

/-- Claim C7: presence caching is positive-only and one-way — a set
`binFound` flag short-circuits every later call without invoking the
locator and never reverts; an unset flag always invokes the locator, and
a negative locator answer is not cached, so the locator runs again on the
next call, while a positive answer is cached and stops further locator
calls. -/
theorem checkPresent_positive_caching :
    (∀ mode loc, checkPresent { binFound := true } mode loc =
      (true, { binFound := true }, false)) ∧
    (∀ ctx mode loc, ctx.binFound = true →
      ((checkPresent ctx mode loc).2.1).binFound = true) ∧
    (∀ ctx mode loc, (checkPresent ctx mode loc).1 = true →
      ((checkPresent ctx mode loc).2.1).binFound = true) ∧
    (∀ mode loc, checkPresent { binFound := false } mode loc =
      (loc, { binFound := loc }, true)) ∧
    (∀ mode mode2 loc2,
      ((checkPresent ((checkPresent { binFound := false } mode true).2.1) mode2 loc2).2.2) =
        false) ∧
    (∀ mode mode2 loc2,
      ((checkPresent ((checkPresent { binFound := false } mode false).2.1) mode2 loc2).2.2) =
        true) := by
  refine ⟨?_, ?_, ?_, ?_, ?_, ?_⟩
  · intro mode loc; rfl
  · intro ctx mode loc h
    simp [checkPresent, h]
  · intro ctx mode loc h
    cases ctx with
    | mk bf =>
      cases bf
      · simp [checkPresent, checkForBinary] at *
        exact h
      · rfl
  · intro mode loc
    simp [checkPresent, checkForBinary]
  · intro mode mode2 loc2; rfl
  · intro mode mode2 loc2; rfl

/-- Witness for C7: the cached positive flag survives a later call. -/
theorem checkPresent_positive_caching_witness :
    ((checkPresent { binFound := true } CheckPresentMode.Silent false).2.1).binFound = true :=
  checkPresent_positive_caching.2.1 { binFound := true } CheckPresentMode.Silent false rfl

/-- Claim C8: with the binary absent, `isRunnable` returns the
distinguishable `Minikube is not installed` failure and runs no command;
with it present, the help command runs and the result is a success exactly
when its exit code is 0, whatever stdout and stderr are. -/
theorem isRunnable_exit_code_mapping :
    (∀ sr : ShellResult, isRunnableMinikube false sr =
      (.failed ["Minikube is not installed"], false)) ∧
    (∀ sr : ShellResult, (isRunnableMinikube true sr).2 = true) ∧
    (∀ sr : ShellResult, ((isRunnableMinikube true sr).1.isSucceeded = true ↔ sr.code = 0)) := by
  refine ⟨?_, ?_, ?_⟩
  · intro sr; rfl
  · intro sr; rfl
  · intro sr
    by_cases h : sr.code = 0 <;>
      simp [isRunnableMinikube, fromShellExitCodeOnly, Errorable.isSucceeded, h]

/-- Witness for C8 at concrete help invocations. -/
theorem isRunnable_exit_code_mapping_witness :
    ((isRunnableMinikube true { code := 0, stdout := "help text", stderr := "" }).1.isSucceeded =
      true ↔ (0 : Int) = 0) :=
  isRunnable_exit_code_mapping.2.2 { code := 0, stdout := "help text", stderr := "" }

/-- Claim C10: an absent (`undefined`/`null`) `additionalFlags` builds the
same flag string as the empty string; with the driver also absent or
empty, the flags portion is empty and the invoked start command is the
binary path, two spaces, and `start`. -/
theorem start_absent_flags_default :
    (∀ vd : Option String, startFlags { vmDriver := vd, additionalFlags := none } =
      startFlags { vmDriver := vd, additionalFlags := some "" }) ∧
    (∀ bin, startCommand bin { vmDriver := none, additionalFlags := none } = bin ++ "  start") ∧
    (∀ bin, startCommand bin { vmDriver := some "", additionalFlags := some "" } =
      bin ++ "  start") ∧
    (∀ bin st outc, st.running = false →
      (startMinikube bin true { vmDriver := none, additionalFlags := none } (.ok st) outc).2.1 =
        some (bin ++ "  start")) := by
  refine ⟨?_, ?_, ?_, ?_⟩
  · intro vd
    simp [startFlags, strTruthy]
  · intro bin
    simp [startCommand, startFlags, strTruthy, String.append_empty, String.append_assoc]
  · intro bin
    simp [startCommand, startFlags, strTruthy, String.append_empty, String.append_assoc]
  · intro bin st outc h
    cases outc with
    | ok result =>
      by_cases hc : result.code = 0 <;>
        simp [startMinikube, h, hc, startCommand, startFlags, strTruthy,
          String.append_empty, String.append_assoc]
    | error e =>
      simp [startMinikube, h, startCommand, startFlags, strTruthy,
        String.append_empty, String.append_assoc]

/-- Witness for C10: the not-running precheck branch at concrete inputs. -/
theorem start_absent_flags_default_witness :
    (startMinikube "minikube" true { vmDriver := none, additionalFlags := none }
        (.ok { running := false, cluster := .str "Stopped", kubectl := .str "Stopped" })
        (.ok { code := 0, stdout := "", stderr := "" })).2.1 =
      some ("minikube" ++ "  start") :=
  start_absent_flags_default.2.2.2 "minikube" _ _ rfl
